import Mathlib

/-!
Shallow embedding of the lacpd daemon (src/lacpd.c) and its Cyclone mailbox
queue interface (src/cyclone/include/nemo/mqueue.h), for checking the
natural-language specification against the code.

The repository ships `mqueue.h` (types and prototypes) but not the bodies of
`mqueue_init`, `mqueue_send`, `mqueue_wait`, `ml_send_event` or
`lacpd_debug_dump`; those are modelled from the spec, as marked in their doc
comments. Everything else is translated from `src/lacpd.c`.
-/

namespace Lacpd

/-! ## Mailbox queue (mqueue.h, §4.1 of the spec)

The C type `mqueue_t` is a doubly linked list of `qelem_t` nodes (sentinels
`q_head`/`q_tail`) carrying `void *q_data`, a mutex `q_mutex` and a counting
semaphore `q_avail`.  The linked list is modelled as the list of the payloads
it holds, in head-to-tail order; the semaphore as its count.  Mutex atomicity
is modelled by each operation being a single step of the embedding. -/

/-- Modelled from the spec: the body of the mqueue operations is not under
src (only mqueue.h declares them).  State of one mailbox queue: the payloads
of the linked list from `q_head` to `q_tail`, and the count of the counting
semaphore `q_avail`. -/
structure mqueue_t (α : Type) where
  items : List α
  sem : Nat
deriving DecidableEq, Repr

/-- Modelled from the spec: `mqueue_init` makes the list empty and the
semaphore count zero. -/
def mqueue_init {α : Type} : mqueue_t α :=
  { items := [], sem := 0 }

/-- Modelled from the spec (§4.1): `mqueue_send` appends the record at the
tail of the list and increments the semaphore, atomically under the mutex. -/
def mqueue_send {α : Type} (q : mqueue_t α) (d : α) : mqueue_t α :=
  { items := q.items ++ [d], sem := q.sem + 1 }

/-- Modelled from the spec (§4.1): `mqueue_wait` blocks the consumer until
the semaphore is non-zero, then pops the head under the mutex and returns the
record.  `none` models the blocked (empty-queue) case. -/
def mqueue_wait {α : Type} (q : mqueue_t α) : Option (α × mqueue_t α) :=
  match q.items with
  | [] => none
  | d :: rest => some (d, { items := rest, sem := q.sem - 1 })

/-- Enqueue a whole list of records in order (the linearized order in which
the enqueues completed under the mutex). -/
def sendAll {α : Type} (q : mqueue_t α) (es : List α) : mqueue_t α :=
  es.foldl mqueue_send q

/-- Dequeue up to `n` records, stopping when the queue is empty. -/
def drainN {α : Type} : Nat → mqueue_t α → List α
  | 0, _ => []
  | n + 1, q =>
    match mqueue_wait q with
    | none => []
    | some (d, q1) => d :: drainN n q1

/-- Invariant of §3 of the spec: the semaphore count equals the length of the
linked list. -/
def mqueueInv {α : Type} (q : mqueue_t α) : Prop :=
  q.sem = q.items.length

instance {α : Type} (q : mqueue_t α) : Decidable (mqueueInv q) := by
  unfold mqueueInv; infer_instance

/-! ## Event records and the timer handler (lacpd.c lines 116-130)

The full definition of `ML_event` lives in a Cyclone header that is not under
src; `timerHandler` zero-fills the record with `memset` and then sets
`sender.peer = ml_timer_index`.  Per §3 of the spec an Event Record carries a
kind, a sender identity (logical port or the timer), a payload and a
timestamp; the Timer kind is identified by the sender identity being the
timer index.  The constant `ml_timer_index` is declared outside src, so the
embedding passes it as the parameter `tidx`. -/

/-- Modelled from the spec: the Event Record (`ML_event`).  `senderPeer` is
the `sender.peer` field set by `timerHandler`; the remaining payload and
timestamp words are zero-filled by `memset`. -/
structure MLEvent where
  senderPeer : Int
  payload : Int
  timestamp : Int
deriving DecidableEq, Repr

/-- The event built by `timerHandler`: `memset(timerEvent, 0, sizeof)` then
`timerEvent->sender.peer = ml_timer_index` (lacpd.c lines 126-127). -/
def mkTimerEvent (tidx : Int) : MLEvent :=
  { senderPeer := tidx, payload := 0, timestamp := 0 }

/-- Modelled from the spec: `ml_send_event` (body not under src) enqueues the
record onto the LACP mailbox queue via `mqueue_send`. -/
def ml_send_event (e : MLEvent) (q : mqueue_t MLEvent) : mqueue_t MLEvent :=
  mqueue_send q e

/-- The daemon state touched by `main` and `timerHandler`: the
`lacpd_shutdown` flag checked by the signal-wait loop, the LACP mailbox
queue, and the log lines emitted so far (VLOG/RDEBUG output). -/
structure MainState where
  lacpd_shutdown : Bool
  queue : mqueue_t MLEvent
  logs : List String
deriving DecidableEq, Repr

/-- Translation of `timerHandler` (lacpd.c lines 116-130).  `allocOk` is the
outcome of the `malloc` of the event record: on success the handler builds
the zero-filled event with `sender.peer = ml_timer_index` and hands it to
`ml_send_event`; on failure it logs the RDEBUG out-of-memory line and
returns, enqueueing nothing. -/
def timerHandler (tidx : Int) (allocOk : Bool) (st : MainState) : MainState :=
  if allocOk then
    { st with queue := ml_send_event (mkTimerEvent tidx) st.queue }
  else
    { st with logs := st.logs ++ ["Out of memory for LACP timer message."] }

/-! ## The signal-wait loop of main (lacpd.c lines 397-418)

After starting the one-second interval timer, `main` blocks all signals and
loops `while (!lacpd_shutdown) { sigwait(&sigset, &signum); switch ... }`.
SIGALRM runs `timerHandler`; SIGTERM and SIGINT log a warning and set
`lacpd_shutdown = 1`; every other signal is logged and ignored.  The loop is
embedded as a fold over the sequence of signals delivered by `sigwait`, each
paired with the `malloc` outcome its `timerHandler` call would see. -/

/-- Signals as dispatched by the switch in `main`. -/
inductive CSignal where
  | SIGALRM : CSignal
  | SIGTERM : CSignal
  | SIGINT : CSignal
  | other : Nat → CSignal
deriving DecidableEq, Repr

/-- Linux signal numbers, used only for the logged messages. -/
def CSignal.signum : CSignal → Nat
  | .SIGALRM => 14
  | .SIGTERM => 15
  | .SIGINT => 2
  | .other n => n

/-- One iteration body of the signal-wait loop: the switch on `signum`
(lacpd.c lines 402-417). -/
def mainLoopStep (tidx : Int) (sig : CSignal) (allocOk : Bool)
    (st : MainState) : MainState :=
  match sig with
  | .SIGALRM => timerHandler tidx allocOk st
  | .SIGTERM =>
    { st with lacpd_shutdown := true,
              logs := st.logs ++ ["main, sig " ++ toString (CSignal.SIGTERM).signum ++ " caught"] }
  | .SIGINT =>
    { st with lacpd_shutdown := true,
              logs := st.logs ++ ["main, sig " ++ toString (CSignal.SIGINT).signum ++ " caught"] }
  | .other n =>
    { st with logs := st.logs ++ ["Ignoring signal " ++ toString n ++ "."] }

/-- The signal-wait loop `while (!lacpd_shutdown) sigwait/switch` of `main`,
run over a finite sequence of delivered signals.  The guard is checked before
each wait, so once `lacpd_shutdown` is set no further signal is processed. -/
def mainLoop (tidx : Int) : List (CSignal × Bool) → MainState → MainState
  | [], st => st
  | p :: rest, st =>
    if st.lacpd_shutdown then st
    else mainLoop tidx rest (mainLoopStep tidx p.1 p.2 st)

/-! ## Thread creation in lacpd_init (lacpd.c lines 170-217)

`lacpd_init` would spawn the Cyclone LACP protocol thread
(`lacpd_protocol_thread`, the Protocol Dispatcher consumer loop), but that
`pthread_create` is compiled out under `#if 0` with a HALON_TODO comment
(lines 188-199).  The only thread actually spawned is the OVSDB interface
thread running `lacpd_ovs_main_thread` (lines 207-215). -/

/-- Thread entry functions named in `lacpd_init`. -/
inductive ThreadFunc where
  | lacpd_protocol_thread : ThreadFunc
  | lacpd_ovs_main_thread : ThreadFunc
deriving DecidableEq, Repr

/-- The list of threads `lacpd_init` actually creates, in program order: the
protocol-thread `pthread_create` at lines 190-198 is under `#if 0`, so only
the OVSDB interface thread at lines 208-211 is spawned. -/
def lacpd_init_threads : List ThreadFunc :=
  [ThreadFunc.lacpd_ovs_main_thread]

/-! ## Option parsing (lacpd.c lines 250-309)

The getopt loop handles `-h`, `--unixctl` and the VLOG/daemon options (all
library code outside src); the claim under check concerns the non-option
remainder `argc -= optind; argv += optind; switch (argc)` at lines 295-308.
The embedding takes the list of non-option arguments left by getopt and the
run directory returned by `ovs_rundir()`. -/

/-- Translation of the tail of `parse_options`: zero non-option arguments
yield the default OVSDB socket path `unix:<rundir>/db.sock` (xasprintf), one
yields a copy of that argument (xstrdup), and two or more hit `VLOG_FATAL`,
modelled as the error case. -/
def parse_options (nonOptionArgs : List String) (rundir : String) :
    Except String String :=
  match nonOptionArgs with
  | [] => .ok ("unix:" ++ rundir ++ "/db.sock")
  | [db] => .ok db
  | _ => .error "at most one non-option argument accepted; use --help for usage"

/-! ## Debug state dump (lacpd.c lines 101-111)

`lacpd_unixctl_dump` builds an empty dynamic string, calls
`lacpd_debug_dump(&ds, argc, argv)` to fill it, replies with its contents and
destroys it.  The body of `lacpd_debug_dump` is not under src; per §6 of the
spec it is a read-only dump of all Port/Aggregator state.  Port and
Aggregator are modelled from §3 of the spec. -/

/-- Modelled from the spec (§3): the per-port record. -/
structure Port where
  portId : Nat
  adminKey : Nat
  partnerKey : Nat
  linkUp : Bool
  actorState : Nat
  partnerState : Nat
  currentWhile : Nat
  periodicTimer : Nat
  waitWhile : Nat
deriving DecidableEq, Repr

/-- Modelled from the spec (§3): the aggregator (LAG) record. -/
structure Aggregator where
  aggId : Nat
  members : List Nat
  ready : Bool
  key : Nat
deriving DecidableEq, Repr

/-- The Port/Aggregator state owned by the protocol engine. -/
structure LacpState where
  ports : List Port
  aggregators : List Aggregator
deriving DecidableEq, Repr

/-- Text rendering of one port for the debug dump. -/
def renderPort (p : Port) : String :=
  "port " ++ toString p.portId ++ " key " ++ toString p.adminKey ++
    " link " ++ toString p.linkUp ++ "\n"

/-- Text rendering of one aggregator for the debug dump. -/
def renderAggregator (a : Aggregator) : String :=
  "lag " ++ toString a.aggId ++ " key " ++ toString a.key ++
    " ready " ++ toString a.ready ++ "\n"

/-- Modelled from the spec: `lacpd_debug_dump` (body not under src) renders
the Port/Aggregator state as text into the dynamic string; the `argv` filter
arguments select what is printed but the state is only read.  The filter is
abstracted: all state is rendered. -/
def lacpd_debug_dump (st : LacpState) (argv : List String) : String :=
  String.join (st.ports.map renderPort) ++
    String.join (st.aggregators.map renderAggregator)

/-- Translation of `lacpd_unixctl_dump` (lacpd.c lines 101-111): build the
dump text with `lacpd_debug_dump` and reply with it; returns the resulting
Port/Aggregator state together with the reply text. -/
def lacpd_unixctl_dump (st : LacpState) (argv : List String) :
    LacpState × String :=
  let ds := lacpd_debug_dump st argv
  (st, ds)

/-! ## Helper lemmas -/

lemma sendAll_items {α : Type} (es : List α) (q : mqueue_t α) :
    (sendAll q es).items = q.items ++ es := by
  induction es generalizing q with
  | nil => simp [sendAll]
  | cons d rest ih =>
    simp only [sendAll, List.foldl_cons] at *
    rw [ih]
    simp [mqueue_send]

lemma drainN_of_items {α : Type} (l : List α) (q : mqueue_t α)
    (h : q.items = l) : drainN l.length q = l := by
  induction l generalizing q with
  | nil => simp [drainN]
  | cons d rest ih =>
    have hw : mqueue_wait q = some (d, { items := rest, sem := q.sem - 1 }) := by
      unfold mqueue_wait
      rw [h]
    simp only [List.length_cons, drainN, hw]
    rw [ih _ rfl]

lemma mainLoop_of_shutdown (tidx : Int) (l : List (CSignal × Bool))
    (st : MainState) (h : st.lacpd_shutdown = true) :
    mainLoop tidx l st = st := by
  cases l <;> simp [mainLoop, h]

lemma mainLoopStep_shutdown_of_not_term (tidx : Int) (sig : CSignal)
    (a : Bool) (st : MainState) (h1 : sig ≠ CSignal.SIGTERM)
    (h2 : sig ≠ CSignal.SIGINT) :
    (mainLoopStep tidx sig a st).lacpd_shutdown = st.lacpd_shutdown := by
  cases sig with
  | SIGALRM =>
    show (timerHandler tidx a st).lacpd_shutdown = st.lacpd_shutdown
    unfold timerHandler
    split <;> rfl
  | SIGTERM => exact absurd rfl h1
  | SIGINT => exact absurd rfl h2
  | other n => rfl

/-- Shared concrete state for the witness theorems. -/
def st0 : MainState :=
  { lacpd_shutdown := false, queue := mqueue_init, logs := [] }

/-! ## Claim theorems -/

/-- C1: for every firing of the once-per-second interval timer (each SIGALRM
handled by the signal-wait loop), `timerHandler` — when the allocation of the
event record succeeds — constructs exactly one Event Record of kind Timer
(zero-filled, with sender identity `sender.peer` set to the timer index) and
enqueues it at the tail of the mailbox queue, changing nothing else of the
daemon state. -/
theorem timerHandler_enqueues_one_timer_event (tidx : Int) (allocOk : Bool)
    (st : MainState) (h : allocOk = true) :
    timerHandler tidx allocOk st =
      { st with queue := mqueue_send st.queue (mkTimerEvent tidx) } ∧
    (timerHandler tidx allocOk st).queue.items =
      st.queue.items ++ [mkTimerEvent tidx] ∧
    (mkTimerEvent tidx).senderPeer = tidx ∧
    (mkTimerEvent tidx).payload = 0 ∧
    (mkTimerEvent tidx).timestamp = 0 := by
  subst h
  exact ⟨rfl, rfl, rfl, rfl, rfl⟩

theorem timerHandler_enqueues_one_timer_event_witness :
    timerHandler 3 true st0 =
      { st0 with queue := mqueue_send st0.queue (mkTimerEvent 3) } ∧
    (timerHandler 3 true st0).queue.items =
      st0.queue.items ++ [mkTimerEvent 3] ∧
    (mkTimerEvent 3).senderPeer = 3 ∧
    (mkTimerEvent 3).payload = 0 ∧
    (mkTimerEvent 3).timestamp = 0 :=
  timerHandler_enqueues_one_timer_event 3 true st0 rfl

/-- C2: when allocation of the event record fails on the enqueue path,
`timerHandler` logs the out-of-memory line and returns without enqueueing:
the mailbox queue is unchanged (not corrupted), exactly one log line records
the drop (so each dropped event is observable and countable from the log),
and the signal-wait loop goes on to process the subsequent signals exactly as
it would from the logged state. -/
theorem timerHandler_alloc_failure_drops_and_continues (tidx : Int)
    (st : MainState) (rest : List (CSignal × Bool))
    (h : st.lacpd_shutdown = false) :
    timerHandler tidx false st =
      { st with logs := st.logs ++ ["Out of memory for LACP timer message."] } ∧
    (timerHandler tidx false st).queue = st.queue ∧
    (timerHandler tidx false st).logs.length = st.logs.length + 1 ∧
    mainLoop tidx ((CSignal.SIGALRM, false) :: rest) st =
      mainLoop tidx rest
        { st with logs := st.logs ++ ["Out of memory for LACP timer message."] } := by
  refine ⟨rfl, rfl, by simp [timerHandler], ?_⟩
  simp [mainLoop, h, mainLoopStep, timerHandler]

theorem timerHandler_alloc_failure_drops_and_continues_witness :
    timerHandler 3 false st0 =
      { st0 with logs := st0.logs ++ ["Out of memory for LACP timer message."] } ∧
    (timerHandler 3 false st0).queue = st0.queue ∧
    (timerHandler 3 false st0).logs.length = st0.logs.length + 1 ∧
    mainLoop 3 [(CSignal.SIGALRM, false), (CSignal.SIGALRM, true)] st0 =
      mainLoop 3 [(CSignal.SIGALRM, true)]
        { st0 with logs := st0.logs ++ ["Out of memory for LACP timer message."] } :=
  timerHandler_alloc_failure_drops_and_continues 3 st0
    [(CSignal.SIGALRM, true)] rfl

/-- C3: the mailbox queue is FIFO: every enqueue appends at the tail, every
dequeue pops the head, and draining the queue after any sequence of completed
enqueues returns first the records already queued and then the enqueued
records in exactly the order the enqueues completed — nothing reordered,
nothing dropped. -/
theorem mqueue_fifo_order {α : Type} (q : mqueue_t α) (es : List α) :
    (∀ d, (mqueue_send q d).items = q.items ++ [d]) ∧
    (∀ (d : α) (rest : List α) (s : Nat),
      mqueue_wait ({ items := d :: rest, sem := s } : mqueue_t α) =
        some (d, { items := rest, sem := s - 1 })) ∧
    (sendAll q es).items = q.items ++ es ∧
    drainN (q.items ++ es).length (sendAll q es) = q.items ++ es := by
  refine ⟨fun d => rfl, fun d rest s => rfl, sendAll_items es q, ?_⟩
  exact drainN_of_items (q.items ++ es) (sendAll q es) (sendAll_items es q)

/-- C4: the counting semaphore of a mailbox queue counts exactly the records
in its linked list: a freshly initialized queue satisfies
`sem = items.length`, and both `mqueue_send` and a successful `mqueue_wait`
preserve it — each operation being one atomic step of the embedding, as the
mutex makes it in the code. -/
theorem mqueue_sem_eq_length_invariant {α : Type} :
    mqueueInv (mqueue_init : mqueue_t α) ∧
    (∀ (q : mqueue_t α) (d : α), mqueueInv q → mqueueInv (mqueue_send q d)) ∧
    (∀ (q : mqueue_t α) (d : α) (q1 : mqueue_t α), mqueueInv q →
      mqueue_wait q = some (d, q1) → mqueueInv q1) := by
  refine ⟨rfl, ?_, ?_⟩
  · intro q d hq
    simp [mqueueInv, mqueue_send] at *
    omega
  · intro q d q1 hq hw
    unfold mqueue_wait at hw
    match hl : q.items with
    | [] => rw [hl] at hw; exact absurd hw (by simp)
    | e :: rest =>
      rw [hl] at hw
      simp only [Option.some.injEq, Prod.mk.injEq] at hw
      obtain ⟨-, rfl⟩ := hw
      simp [mqueueInv, hl] at hq ⊢
      omega

theorem mqueue_sem_eq_length_invariant_witness :
    mqueueInv (mqueue_send (mqueue_init : mqueue_t Nat) 5) ∧
    mqueueInv ({ items := [], sem := 0 } : mqueue_t Nat) :=
  ⟨mqueue_sem_eq_length_invariant.2.1 mqueue_init 5
    mqueue_sem_eq_length_invariant.1,
   mqueue_sem_eq_length_invariant.2.2 (mqueue_send mqueue_init 5) 5 _
    (mqueue_sem_eq_length_invariant.2.1 mqueue_init 5
      mqueue_sem_eq_length_invariant.1) rfl⟩

/-- C5: evaluation of the thread creation in `lacpd_init`: only the OVSDB
interface thread (`lacpd_ovs_main_thread`) is spawned; no thread running the
Protocol Dispatcher consumer loop (`lacpd_protocol_thread`) is created,
because its `pthread_create` is compiled out under `#if 0` with a HALON_TODO
comment.  This contradicts the claim that initialization spawns a dedicated
Protocol Dispatcher thread. -/
theorem lacpd_init_spawns_no_protocol_dispatcher_thread :
    lacpd_init_threads = [ThreadFunc.lacpd_ovs_main_thread] ∧
    ThreadFunc.lacpd_protocol_thread ∉ lacpd_init_threads := by
  decide

/-- C7: delivering SIGTERM or SIGINT to the running signal-wait loop logs
the warning, sets `lacpd_shutdown`, and makes the loop exit at once: the
whole run equals the single shutdown step, the shutdown flag ends true, and
the mailbox queue is exactly as it was — no signal delivered afterwards
(SIGALRM included) is processed, so no further timer event is produced. -/
theorem sigterm_sigint_orderly_shutdown (tidx : Int) (sig : CSignal)
    (a : Bool) (rest : List (CSignal × Bool)) (st : MainState)
    (hrun : st.lacpd_shutdown = false)
    (hsig : sig = CSignal.SIGTERM ∨ sig = CSignal.SIGINT) :
    mainLoop tidx ((sig, a) :: rest) st = mainLoopStep tidx sig a st ∧
    (mainLoop tidx ((sig, a) :: rest) st).lacpd_shutdown = true ∧
    (mainLoop tidx ((sig, a) :: rest) st).queue = st.queue := by
  have hstep : mainLoop tidx ((sig, a) :: rest) st =
      mainLoop tidx rest (mainLoopStep tidx sig a st) := by
    simp [mainLoop, hrun]
  rcases hsig with rfl | rfl
  · rw [hstep, mainLoop_of_shutdown _ _ _ rfl]
    exact ⟨rfl, rfl, rfl⟩
  · rw [hstep, mainLoop_of_shutdown _ _ _ rfl]
    exact ⟨rfl, rfl, rfl⟩

theorem sigterm_sigint_orderly_shutdown_witness :
    mainLoop 3 [(CSignal.SIGTERM, true), (CSignal.SIGALRM, true)] st0 =
      mainLoopStep 3 CSignal.SIGTERM true st0 ∧
    (mainLoop 3 [(CSignal.SIGTERM, true), (CSignal.SIGALRM, true)] st0).lacpd_shutdown
      = true ∧
    (mainLoop 3 [(CSignal.SIGTERM, true), (CSignal.SIGALRM, true)] st0).queue
      = st0.queue :=
  sigterm_sigint_orderly_shutdown 3 CSignal.SIGTERM true
    [(CSignal.SIGALRM, true)] st0 rfl (Or.inl rfl)

/-- C10: any signal other than SIGALRM, SIGTERM and SIGINT only appends the
"Ignoring signal" log line — the shutdown flag and the queue are untouched —
and a signal-wait loop started with `lacpd_shutdown = false` that sees no
SIGTERM and no SIGINT ends with `lacpd_shutdown` still false: the daemon
leaves its main loop only through SIGTERM or SIGINT. -/
theorem other_signals_ignored_loop_continues (tidx : Int) :
    (∀ (n : Nat) (a : Bool) (st : MainState),
      mainLoopStep tidx (CSignal.other n) a st =
        { st with logs := st.logs ++ ["Ignoring signal " ++ toString n ++ "."] }) ∧
    (∀ (sigs : List (CSignal × Bool)) (st : MainState),
      st.lacpd_shutdown = false →
      (∀ p ∈ sigs, p.1 ≠ CSignal.SIGTERM ∧ p.1 ≠ CSignal.SIGINT) →
      (mainLoop tidx sigs st).lacpd_shutdown = false) := by
  refine ⟨fun n a st => rfl, ?_⟩
  intro sigs
  induction sigs with
  | nil => intro st h _; simpa [mainLoop] using h
  | cons p rest ih =>
    intro st h hall
    have hp := hall p (List.mem_cons_self p rest)
    have hstep : (mainLoopStep tidx p.1 p.2 st).lacpd_shutdown = false := by
      rw [mainLoopStep_shutdown_of_not_term tidx p.1 p.2 st hp.1 hp.2]
      exact h
    simp only [mainLoop, h, if_false, Bool.false_eq_true]
    exact ih _ hstep (fun q hq => hall q (List.mem_cons_of_mem p hq))

theorem other_signals_ignored_loop_continues_witness :
    mainLoopStep 3 (CSignal.other 1) true st0 =
      { st0 with logs := st0.logs ++ ["Ignoring signal " ++ toString 1 ++ "."] } ∧
    (mainLoop 3 [(CSignal.other 1, true), (CSignal.SIGALRM, true)] st0).lacpd_shutdown
      = false :=
  ⟨(other_signals_ignored_loop_continues 3).1 1 true st0,
   (other_signals_ignored_loop_continues 3).2
     [(CSignal.other 1, true), (CSignal.SIGALRM, true)] st0 rfl (by decide)⟩

/-- C8: the debug-state dump is read-only: `lacpd_unixctl_dump` replies with
the text rendering produced by `lacpd_debug_dump` and returns the
Port/Aggregator state exactly as it received it. -/
theorem lacpd_unixctl_dump_read_only (st : LacpState) (argv : List String) :
    (lacpd_unixctl_dump st argv).1 = st ∧
    (lacpd_unixctl_dump st argv).2 = lacpd_debug_dump st argv :=
  ⟨rfl, rfl⟩

/-- C9: `parse_options` accepts at most one non-option argument: with zero it
returns the default OVSDB socket path `unix:<rundir>/db.sock`, with exactly
one it returns that argument, and with two or more it terminates fatally
(VLOG_FATAL, the error case of the embedding). -/
theorem parse_options_nonoption_arguments (rundir : String) :
    parse_options [] rundir = Except.ok ("unix:" ++ rundir ++ "/db.sock") ∧
    (∀ db, parse_options [db] rundir = Except.ok db) ∧
    (∀ (a b : String) (rest : List String),
      parse_options (a :: b :: rest) rundir =
        Except.error
          "at most one non-option argument accepted; use --help for usage") :=
  ⟨rfl, fun db => rfl, fun a b rest => rfl⟩

end Lacpd
